import Mathlib

/-!
Verification of the Student Wellbeing persistence layer
(`core/database/connection.py`, `core/database/migrations.py`, and the
`core/models` dataclasses) against its specification.

The SQLite engine state is shallowly embedded: a database is a list of
tables, each a declared schema (columns with PRIMARY KEY / AUTOINCREMENT /
UNIQUE / NOT NULL flags and foreign-key clauses, exactly as in the DDL of
`run_migrations`) together with its rows.  Connections are explicit
handles produced by a state-passing connection factory; the insert
operation models the engine's constraint checks (NOT NULL, then
UNIQUE/PK, then immediate foreign keys, the latter only when the handle
has the foreign-key pragma enabled).  An `Except.error` result from an
operation means the statement failed and the store is unchanged.
-/

namespace SWB

/-- Conceptual SQL column types appearing in the DDL of `run_migrations`. -/
inductive SQLType
  | text
  | integer
  | date
  | datetime
  | real
  deriving DecidableEq

/-- A column declaration: name, type, and the constraint flags used by the DDL. -/
structure Column where
  name : String
  ty : SQLType
  pk : Bool := false
  autoincrement : Bool := false
  unique : Bool := false
  notNull : Bool := false
  deriving DecidableEq

/-- A `FOREIGN KEY (column) REFERENCES refTable(refColumn)` clause. -/
structure ForeignKey where
  column : String
  refTable : String
  refColumn : String
  deriving DecidableEq

/-- A table declaration: its name, columns and foreign-key clauses. -/
structure TableSchema where
  name : String
  columns : List Column
  foreignKeys : List ForeignKey := []
  deriving DecidableEq

/-- SQLite storage values (BLOB omitted; nothing in this layer produces one). -/
inductive Value
  | null
  | int (n : Int)
  | real (q : Rat)
  | text (s : String)
  deriving DecidableEq

/-- A row, as the association of column names to values; a column absent
from the list holds SQL NULL. -/
abbrev Row := List (String × Value)

/-- Value of column `c` in row `r` (NULL when the column is absent). -/
def rowVal (r : Row) (c : String) : Value :=
  (r.lookup c).getD Value.null

/-- A table: declared schema plus current rows. -/
structure Table where
  schema : TableSchema
  rows : List Row
  deriving DecidableEq

/-- A freshly created table: the declared schema with no rows. -/
def Table.mkEmpty (s : TableSchema) : Table :=
  ⟨s, []⟩

/-- The whole store: the list of tables, in creation order. -/
structure DBState where
  tables : List Table
  deriving DecidableEq

def DBState.hasTable (db : DBState) (n : String) : Bool :=
  db.tables.any fun t => t.schema.name == n

def DBState.findTable (db : DBState) (n : String) : Option Table :=
  db.tables.find? fun t => t.schema.name == n

/-- Models `CREATE TABLE IF NOT EXISTS`: a no-op when a table of that name
already exists, otherwise the empty table is appended. -/
def createTableIfNotExists (s : TableSchema) (db : DBState) : DBState :=
  if db.hasTable s.name then db else ⟨db.tables ++ [Table.mkEmpty s]⟩

/-- student(student_id TEXT PK, first_name, lastname, email UNIQUE, password, year INTEGER). -/
def studentSchema : TableSchema :=
  { name := "student"
    columns :=
      [ { name := "student_id", ty := SQLType.text, pk := true }
      , { name := "first_name", ty := SQLType.text }
      , { name := "lastname", ty := SQLType.text }
      , { name := "email", ty := SQLType.text, unique := true }
      , { name := "password", ty := SQLType.text }
      , { name := "year", ty := SQLType.integer } ] }

/-- attendance(attendance_id INTEGER PK AUTOINCREMENT, student_id, session_date,
session_id, status; FK student_id → student). -/
def attendanceSchema : TableSchema :=
  { name := "attendance"
    columns :=
      [ { name := "attendance_id", ty := SQLType.integer, pk := true, autoincrement := true }
      , { name := "student_id", ty := SQLType.text }
      , { name := "session_date", ty := SQLType.date }
      , { name := "session_id", ty := SQLType.text }
      , { name := "status", ty := SQLType.text } ]
    foreignKeys := [⟨"student_id", "student", "student_id"⟩] }

/-- assessment(assessment_id INTEGER PK AUTOINCREMENT, module_code, title, due_date, weight REAL). -/
def assessmentSchema : TableSchema :=
  { name := "assessment"
    columns :=
      [ { name := "assessment_id", ty := SQLType.integer, pk := true, autoincrement := true }
      , { name := "module_code", ty := SQLType.text }
      , { name := "title", ty := SQLType.text }
      , { name := "due_date", ty := SQLType.date }
      , { name := "weight", ty := SQLType.real } ] }

/-- submission(submission_id INTEGER PK AUTOINCREMENT, student_id, assessment_id,
submitted_at, status, mark REAL; FKs to student and assessment). -/
def submissionSchema : TableSchema :=
  { name := "submission"
    columns :=
      [ { name := "submission_id", ty := SQLType.integer, pk := true, autoincrement := true }
      , { name := "student_id", ty := SQLType.text }
      , { name := "assessment_id", ty := SQLType.integer }
      , { name := "submitted_at", ty := SQLType.datetime }
      , { name := "status", ty := SQLType.text }
      , { name := "mark", ty := SQLType.real } ]
    foreignKeys :=
      [ ⟨"student_id", "student", "student_id"⟩
      , ⟨"assessment_id", "assessment", "assessment_id"⟩ ] }

/-- wellbeing_record(record_id INTEGER PK AUTOINCREMENT, student_id, week_start,
stress_level INTEGER, sleep_hours REAL, source_type; FK student_id → student). -/
def wellbeingRecordSchema : TableSchema :=
  { name := "wellbeing_record"
    columns :=
      [ { name := "record_id", ty := SQLType.integer, pk := true, autoincrement := true }
      , { name := "student_id", ty := SQLType.text }
      , { name := "week_start", ty := SQLType.date }
      , { name := "stress_level", ty := SQLType.integer }
      , { name := "sleep_hours", ty := SQLType.real }
      , { name := "source_type", ty := SQLType.text } ]
    foreignKeys := [⟨"student_id", "student", "student_id"⟩] }

/-- alert(alert_id INTEGER PK AUTOINCREMENT, student_id, alert_type, reason,
created_at, resolved INTEGER 0/1; FK student_id → student). -/
def alertSchema : TableSchema :=
  { name := "alert"
    columns :=
      [ { name := "alert_id", ty := SQLType.integer, pk := true, autoincrement := true }
      , { name := "student_id", ty := SQLType.text }
      , { name := "alert_type", ty := SQLType.text }
      , { name := "reason", ty := SQLType.text }
      , { name := "created_at", ty := SQLType.datetime }
      , { name := "resolved", ty := SQLType.integer } ]
    foreignKeys := [⟨"student_id", "student", "student_id"⟩] }

/-- retention_rule(rule_id INTEGER PK AUTOINCREMENT, data_type, retention_months INTEGER, is_active INTEGER 0/1). -/
def retentionRuleSchema : TableSchema :=
  { name := "retention_rule"
    columns :=
      [ { name := "rule_id", ty := SQLType.integer, pk := true, autoincrement := true }
      , { name := "data_type", ty := SQLType.text }
      , { name := "retention_months", ty := SQLType.integer }
      , { name := "is_active", ty := SQLType.integer } ] }

/-- audit_log(log_id INTEGER PK AUTOINCREMENT, user_id TEXT, entity_type,
entity_id INTEGER, action_type, timestamp, details). -/
def auditLogSchema : TableSchema :=
  { name := "audit_log"
    columns :=
      [ { name := "log_id", ty := SQLType.integer, pk := true, autoincrement := true }
      , { name := "user_id", ty := SQLType.text }
      , { name := "entity_type", ty := SQLType.text }
      , { name := "entity_id", ty := SQLType.integer }
      , { name := "action_type", ty := SQLType.text }
      , { name := "timestamp", ty := SQLType.datetime }
      , { name := "details", ty := SQLType.text } ] }

/-- user(user_id TEXT PK, first_name NOT NULL, lastname NOT NULL,
password_hash NOT NULL, role NOT NULL). -/
def userSchema : TableSchema :=
  { name := "user"
    columns :=
      [ { name := "user_id", ty := SQLType.text, pk := true }
      , { name := "first_name", ty := SQLType.text, notNull := true }
      , { name := "lastname", ty := SQLType.text, notNull := true }
      , { name := "password_hash", ty := SQLType.text, notNull := true }
      , { name := "role", ty := SQLType.text, notNull := true } ] }

/-- The nine CREATE TABLE IF NOT EXISTS statements of `run_migrations`,
in the order they are executed. -/
def migrationSchemas : List TableSchema :=
  [ studentSchema, attendanceSchema, assessmentSchema, submissionSchema
  , wellbeingRecordSchema, alertSchema, retentionRuleSchema, auditLogSchema, userSchema ]

/-- Errors surfaced verbatim by the store (sqlite3.IntegrityError subcases,
missing tables, and the access / schema failures of the spec's taxonomy). -/
inductive SqlError
  | notNullViolation
  | uniqueViolation
  | fkViolation
  | noSuchTable
  | accessError
  | schemaError
  deriving DecidableEq

/-- Outcome of one `run_migrations` call: the store afterwards, the error
that propagated to the caller (if any), and whether `conn.close()` ran. -/
structure MigResult where
  db : DBState
  error : Option SqlError
  connClosed : Bool
  deriving DecidableEq

/-- Runs the CREATE statements in order from statement index `i`; `fail j`
injects the store error (unreachable file, lock, malformed DDL) that
statement `j` raises, if any.  Execution stops at the first error, which
propagates. -/
def runStmts (fail : Nat → Option SqlError) : Nat → DBState → List TableSchema → DBState × Option SqlError
  | _, db, [] => (db, none)
  | i, db, s :: rest =>
    match fail i with
    | some e => (db, some e)
    | none => runStmts fail (i + 1) (createTableIfNotExists s db) rest

/-- Models `run_migrations`: opens its own connection, executes the nine CREATE
TABLE IF NOT EXISTS statements, then `conn.commit()` (injected as
statement index 9), and only on the all-success path reaches
`cursor.close(); conn.close()` — the function body has no try/finally, so
an exception anywhere skips the close calls. -/
def run_migrations (fail : Nat → Option SqlError) (db : DBState) : MigResult :=
  match runStmts fail 0 db migrationSchemas with
  | (db1, some e) => ⟨db1, some e, false⟩
  | (db1, none) =>
    match fail migrationSchemas.length with
    | some e => ⟨db1, some e, false⟩
    | none => ⟨db1, none, true⟩

/-- The error-free execution: every statement succeeds. -/
def noFail : Nat → Option SqlError := fun _ => none

/-- An execution whose first CREATE statement raises a store-access error. -/
def failFirst : Nat → Option SqlError :=
  fun i => if i = 0 then some SqlError.accessError else none

/-- The pure table-creating effect of a successful `run_migrations`. -/
def applySchema (db : DBState) : DBState :=
  migrationSchemas.foldl (fun d s => createTableIfNotExists s d) db

/-- Row-factory configuration of a connection: sqlite3's tuple default, or
`sqlite3.Row`, which adds name-addressable access. -/
inductive RowFactory
  | tuples
  | sqliteRow
  deriving DecidableEq

/-- An open connection handle: its identity, whether the
`PRAGMA foreign_keys = ON` pragma has been issued on it, and its row factory. -/
structure Handle where
  id : Nat
  fkEnabled : Bool
  rowFactory : RowFactory
  deriving DecidableEq

/-- The connection-allocation state: sqlite3.connect never hands out the
same connection object twice, modelled by a fresh-id counter. -/
structure ConnEnv where
  nextId : Nat
  deriving DecidableEq

/-- Models `get_db_connection`: returns a NEW connection each time, sets
`row_factory = sqlite3.Row`, and issues `PRAGMA foreign_keys = ON`. -/
def get_db_connection (env : ConnEnv) : Handle × ConnEnv :=
  (⟨env.nextId, true, RowFactory.sqliteRow⟩, ⟨env.nextId + 1⟩)

/-- Models `get_db_pool`: backwards-compatible shim, just returns `get_db_connection()`. -/
def get_db_pool (env : ConnEnv) : Handle × ConnEnv :=
  get_db_connection env

/-- The handle produced by the n-th call (0-based) in a sequence of
`get_db_connection` calls starting from `env`, with the state after it. -/
def connCalls (env : ConnEnv) : Nat → Handle × ConnEnv
  | 0 => get_db_connection env
  | n + 1 => get_db_connection (connCalls env n).2

/-- Name-addressable access to a fetched row: available exactly when the
handle's row factory is `sqlite3.Row`. -/
def Handle.getByName (h : Handle) (r : Row) (c : String) : Option Value :=
  match h.rowFactory with
  | RowFactory.sqliteRow => r.lookup c
  | RowFactory.tuples => none

/-- Position-addressable access to a fetched row (available under both
row factories). -/
def Handle.getByIndex (h : Handle) (r : Row) (i : Nat) : Option Value :=
  match h.rowFactory with
  | RowFactory.sqliteRow => (r[i]?).map Prod.snd
  | RowFactory.tuples => (r[i]?).map Prod.snd

/-- NOT NULL check: every column declared NOT NULL must carry a non-NULL value. -/
def notNullOk (s : TableSchema) (r : Row) : Bool :=
  s.columns.all fun c => !c.notNull || !(rowVal r c.name == Value.null)

/-- Next rowid for an INTEGER PRIMARY KEY AUTOINCREMENT column: one more
than the largest value already stored. -/
def nextAutoId (t : Table) (cn : String) : Int :=
  1 + t.rows.foldl (fun m row => max m (match rowVal row cn with | Value.int n => n | _ => 0)) 0

/-- When the table has an INTEGER PRIMARY KEY AUTOINCREMENT column and the
incoming row leaves it NULL, the engine assigns the next rowid. -/
def autoAssign (t : Table) (r : Row) : Row :=
  match t.schema.columns.find? (fun c => c.pk && c.autoincrement) with
  | some c =>
    if rowVal r c.name == Value.null then (c.name, Value.int (nextAutoId t c.name)) :: r
    else r
  | none => r

/-- UNIQUE / PRIMARY KEY check: no existing row may share a non-NULL value
in a PK or UNIQUE column (SQLite treats NULLs as distinct, and a non-INTEGER
PRIMARY KEY does not by itself imply NOT NULL). -/
def uniqueOk (t : Table) (r : Row) : Bool :=
  t.schema.columns.all fun c =>
    !(c.pk || c.unique) || rowVal r c.name == Value.null ||
      !(t.rows.any fun row => rowVal row c.name == rowVal r c.name)

/-- One immediate foreign-key constraint: satisfied when the child value is
NULL, or when the parent table exists and holds a matching parent value. -/
def fkSatisfied (db : DBState) (r : Row) (fk : ForeignKey) : Bool :=
  rowVal r fk.column == Value.null ||
    match db.findTable fk.refTable with
    | some pt => pt.rows.any fun prow => rowVal prow fk.refColumn == rowVal r fk.column
    | none => false

/-- INSERT through a handle: the engine resolves the table, checks NOT NULL,
assigns the autoincrement id, checks UNIQUE/PK, then (when the handle has the
foreign-key pragma on) the immediate foreign keys; on any violation the
statement fails with the corresponding error and the store is unchanged,
otherwise the row is appended to the table. -/
def insertRow (h : Handle) (db : DBState) (tname : String) (r : Row) : Except SqlError DBState :=
  match db.findTable tname with
  | none => Except.error SqlError.noSuchTable
  | some t =>
    if !notNullOk t.schema r then Except.error SqlError.notNullViolation
    else
      let rw := autoAssign t r
      if !uniqueOk t rw then Except.error SqlError.uniqueViolation
      else if h.fkEnabled && !(t.schema.foreignKeys.all (fkSatisfied db rw)) then
        Except.error SqlError.fkViolation
      else
        Except.ok ⟨db.tables.map fun tb =>
          if tb.schema.name == tname then ⟨tb.schema, tb.rows ++ [rw]⟩ else tb⟩

/-! Spec-side schemas, written from the spec's §6 "Schema (authoritative
column lists)" bullet points, for comparison with the tables the code's
DDL actually creates. -/

/-- Spec §6: student(student_id TEXT PK, first_name TEXT, lastname TEXT,
email TEXT UNIQUE, password TEXT, year INTEGER). -/
def specStudent : TableSchema :=
  { name := "student"
    columns :=
      [ { name := "student_id", ty := SQLType.text, pk := true }
      , { name := "first_name", ty := SQLType.text }
      , { name := "lastname", ty := SQLType.text }
      , { name := "email", ty := SQLType.text, unique := true }
      , { name := "password", ty := SQLType.text }
      , { name := "year", ty := SQLType.integer } ] }

/-- Spec §6: attendance(attendance_id INTEGER PK AUTOINCREMENT,
student_id TEXT FK→student, session_date DATE, session_id TEXT, status TEXT). -/
def specAttendance : TableSchema :=
  { name := "attendance"
    columns :=
      [ { name := "attendance_id", ty := SQLType.integer, pk := true, autoincrement := true }
      , { name := "student_id", ty := SQLType.text }
      , { name := "session_date", ty := SQLType.date }
      , { name := "session_id", ty := SQLType.text }
      , { name := "status", ty := SQLType.text } ]
    foreignKeys := [⟨"student_id", "student", "student_id"⟩] }

/-- Spec §6: assessment(assessment_id INTEGER PK AUTOINCREMENT,
module_code TEXT, title TEXT, due_date DATE, weight REAL). -/
def specAssessment : TableSchema :=
  { name := "assessment"
    columns :=
      [ { name := "assessment_id", ty := SQLType.integer, pk := true, autoincrement := true }
      , { name := "module_code", ty := SQLType.text }
      , { name := "title", ty := SQLType.text }
      , { name := "due_date", ty := SQLType.date }
      , { name := "weight", ty := SQLType.real } ] }

/-- Spec §6: submission(submission_id INTEGER PK AUTOINCREMENT, student_id
TEXT FK→student, assessment_id INTEGER FK→assessment, submitted_at DATETIME,
status TEXT, mark REAL). -/
def specSubmission : TableSchema :=
  { name := "submission"
    columns :=
      [ { name := "submission_id", ty := SQLType.integer, pk := true, autoincrement := true }
      , { name := "student_id", ty := SQLType.text }
      , { name := "assessment_id", ty := SQLType.integer }
      , { name := "submitted_at", ty := SQLType.datetime }
      , { name := "status", ty := SQLType.text }
      , { name := "mark", ty := SQLType.real } ]
    foreignKeys :=
      [ ⟨"student_id", "student", "student_id"⟩
      , ⟨"assessment_id", "assessment", "assessment_id"⟩ ] }

/-- Spec §6: wellbeing_record(record_id INTEGER PK AUTOINCREMENT, student_id
TEXT FK→student, week_start DATE, stress_level INTEGER, sleep_hours REAL,
source_type TEXT). -/
def specWellbeingRecord : TableSchema :=
  { name := "wellbeing_record"
    columns :=
      [ { name := "record_id", ty := SQLType.integer, pk := true, autoincrement := true }
      , { name := "student_id", ty := SQLType.text }
      , { name := "week_start", ty := SQLType.date }
      , { name := "stress_level", ty := SQLType.integer }
      , { name := "sleep_hours", ty := SQLType.real }
      , { name := "source_type", ty := SQLType.text } ]
    foreignKeys := [⟨"student_id", "student", "student_id"⟩] }

/-- Spec §6: alert(alert_id INTEGER PK AUTOINCREMENT, student_id TEXT
FK→student, alert_type TEXT, reason TEXT, created_at DATETIME, resolved
INTEGER as 0/1). -/
def specAlert : TableSchema :=
  { name := "alert"
    columns :=
      [ { name := "alert_id", ty := SQLType.integer, pk := true, autoincrement := true }
      , { name := "student_id", ty := SQLType.text }
      , { name := "alert_type", ty := SQLType.text }
      , { name := "reason", ty := SQLType.text }
      , { name := "created_at", ty := SQLType.datetime }
      , { name := "resolved", ty := SQLType.integer } ]
    foreignKeys := [⟨"student_id", "student", "student_id"⟩] }

/-- Spec §6: retention_rule(rule_id INTEGER PK AUTOINCREMENT, data_type TEXT,
retention_months INTEGER, is_active INTEGER as 0/1). -/
def specRetentionRule : TableSchema :=
  { name := "retention_rule"
    columns :=
      [ { name := "rule_id", ty := SQLType.integer, pk := true, autoincrement := true }
      , { name := "data_type", ty := SQLType.text }
      , { name := "retention_months", ty := SQLType.integer }
      , { name := "is_active", ty := SQLType.integer } ] }

/-- Spec §6: audit_log(log_id INTEGER PK AUTOINCREMENT, user_id TEXT,
entity_type TEXT, entity_id INTEGER, action_type TEXT, timestamp DATETIME,
details TEXT). -/
def specAuditLog : TableSchema :=
  { name := "audit_log"
    columns :=
      [ { name := "log_id", ty := SQLType.integer, pk := true, autoincrement := true }
      , { name := "user_id", ty := SQLType.text }
      , { name := "entity_type", ty := SQLType.text }
      , { name := "entity_id", ty := SQLType.integer }
      , { name := "action_type", ty := SQLType.text }
      , { name := "timestamp", ty := SQLType.datetime }
      , { name := "details", ty := SQLType.text } ] }

/-- Spec §6: user(user_id TEXT PK, first_name TEXT NOT NULL, lastname TEXT
NOT NULL, password_hash TEXT NOT NULL, role TEXT NOT NULL). -/
def specUser : TableSchema :=
  { name := "user"
    columns :=
      [ { name := "user_id", ty := SQLType.text, pk := true }
      , { name := "first_name", ty := SQLType.text, notNull := true }
      , { name := "lastname", ty := SQLType.text, notNull := true }
      , { name := "password_hash", ty := SQLType.text, notNull := true }
      , { name := "role", ty := SQLType.text, notNull := true } ] }

/-- The nine freshly created (empty) tables as the spec enumerates them. -/
def specTables : List Table :=
  [ Table.mkEmpty specStudent, Table.mkEmpty specAttendance, Table.mkEmpty specAssessment
  , Table.mkEmpty specSubmission, Table.mkEmpty specWellbeingRecord, Table.mkEmpty specAlert
  , Table.mkEmpty specRetentionRule, Table.mkEmpty specAuditLog, Table.mkEmpty specUser ]

/-! The `core/models` dataclasses, as (field name, annotated native type)
lists, and the spec's column-to-native-type mirror. -/

/-- Native (Python-level) types appearing in the dataclass annotations. -/
inductive PyType
  | int
  | str
  | bool
  | date
  | datetime
  | float
  | attendanceStatusEnum
  deriving DecidableEq

/-- Fields of `Student.py`: all annotated `str`, including `year`. -/
def StudentFields : List (String × PyType) :=
  [ ("student_id", PyType.str), ("first_name", PyType.str), ("lastname", PyType.str)
  , ("email", PyType.str), ("password", PyType.str), ("year", PyType.str) ]

/-- Fields of `AttendanceRecord.py` (status annotated `AttendanceStatus`). -/
def AttendanceRecordFields : List (String × PyType) :=
  [ ("attendance_id", PyType.int), ("student_id", PyType.str), ("session_date", PyType.date)
  , ("session_id", PyType.str), ("status", PyType.attendanceStatusEnum) ]

/-- Fields of `Alert.py` (`resolved: bool = False`). -/
def AlertFields : List (String × PyType) :=
  [ ("alert_id", PyType.int), ("student_id", PyType.str), ("alert_type", PyType.str)
  , ("reason", PyType.str), ("created_at", PyType.datetime), ("resolved", PyType.bool) ]

/-- Fields of `AuditLog.py`, as spelled in the source: `user_id: int` and
the misspelled `entitiy_type: str`. -/
def AuditLogFields : List (String × PyType) :=
  [ ("log_id", PyType.int), ("user_id", PyType.int), ("entitiy_type", PyType.str)
  , ("entity_id", PyType.int), ("action_type", PyType.str), ("timestamp", PyType.datetime)
  , ("details", PyType.str) ]

/-- The spec's default storage-to-native substitution: text as strings,
integers as integers, DATE as date values, DATETIME as datetime values,
REAL as floats. -/
def baseNative : SQLType → PyType
  | SQLType.text => PyType.str
  | SQLType.integer => PyType.int
  | SQLType.date => PyType.date
  | SQLType.datetime => PyType.datetime
  | SQLType.real => PyType.float

/-- The field list a dataclass must have to be a direct field-for-field
mirror of a table: same names as the columns, native types substituted,
with `special` carrying the spec's per-column overrides (enumerations,
0/1 integers as booleans). -/
def mirrorFields (s : TableSchema) (special : String → Option PyType) : List (String × PyType) :=
  s.columns.map fun c => (c.name, (special c.name).getD (baseNative c.ty))

/-- Attendance: the status column is the closed enumeration
Present / Absent / Excused. -/
def attendanceSpecial : String → Option PyType :=
  fun n => if n = "status" then some PyType.attendanceStatusEnum else none

/-- Alert: the resolved 0/1 column is a boolean natively. -/
def alertSpecial : String → Option PyType :=
  fun n => if n = "resolved" then some PyType.bool else none

/-- No per-column override. -/
def noSpecial : String → Option PyType := fun _ => none

/-- Python `datetime.datetime` values, abstracted to a timestamp. -/
structure PyDatetime where
  epochSeconds : Int
  deriving DecidableEq

/-- The `Alert` dataclass of `Alert.py`. -/
structure Alert where
  alert_id : Int
  student_id : String
  alert_type : String
  reason : String
  created_at : PyDatetime
  resolved : Bool := false
  deriving DecidableEq

/-- Constructing an `Alert` without supplying `resolved`: the dataclass
default `resolved: bool = False` applies. -/
def mkAlertDefault (alert_id : Int) (student_id alert_type reason : String)
    (created_at : PyDatetime) : Alert :=
  { alert_id := alert_id, student_id := student_id, alert_type := alert_type
  , reason := reason, created_at := created_at }

/-! Concrete fixtures used by witnesses and counterexamples. -/

/-- The empty store. -/
def emptyDB : DBState := ⟨[]⟩

/-- A store that already holds a `student` table with a single unrelated
column (and no rows). -/
def weirdStudentDB : DBState :=
  ⟨[⟨{ name := "student", columns := [{ name := "only_col", ty := SQLType.text }] }, []⟩]⟩

/-- A migrated-shape store with an empty student table and an empty
attendance table. -/
def fkDemoDB : DBState :=
  ⟨[Table.mkEmpty studentSchema, Table.mkEmpty attendanceSchema]⟩

/-- An attendance row for a student id that no student row carries. -/
def fkDemoRow : Row :=
  [("student_id", Value.text "S001"), ("session_id", Value.text "W1"),
   ("status", Value.text "Present")]

/-- A store whose student table holds one student with a non-null email. -/
def emailDemoDB : DBState :=
  ⟨[⟨studentSchema,
     [[("student_id", Value.text "S001"), ("email", Value.text "john@example.com")]]⟩]⟩

/-- The row already stored in `emailDemoDB`. -/
def emailDemoRow0 : Row :=
  [("student_id", Value.text "S001"), ("email", Value.text "john@example.com")]

/-- A second student row reusing the stored email. -/
def emailDemoRow : Row :=
  [("student_id", Value.text "S002"), ("email", Value.text "john@example.com")]

/-! Theorems. -/

theorem runStmts_noFail (l : List TableSchema) : ∀ (i : Nat) (db : DBState),
    runStmts noFail i db l = (l.foldl (fun d s => createTableIfNotExists s d) db, none) := by
  induction l with
  | nil => intro i db; rfl
  | cons s rest ih =>
    intro i db
    simpa [runStmts, noFail] using ih (i + 1) (createTableIfNotExists s db)

theorem run_migrations_noFail_eq (db : DBState) :
    run_migrations noFail db = ⟨applySchema db, none, true⟩ := by
  simp [run_migrations, runStmts_noFail, applySchema, noFail]

theorem hasTable_create_mono (s : TableSchema) (db : DBState) (n : String)
    (h : db.hasTable n = true) : (createTableIfNotExists s db).hasTable n = true := by
  unfold createTableIfNotExists
  split
  · exact h
  · simp only [DBState.hasTable, List.any_append] at h ⊢
    simp [h]

theorem hasTable_create_self (s : TableSchema) (db : DBState) :
    (createTableIfNotExists s db).hasTable s.name = true := by
  unfold createTableIfNotExists
  split
  · assumption
  · simp [DBState.hasTable, List.any_append, Table.mkEmpty]

theorem foldl_create_mono (l : List TableSchema) : ∀ (db : DBState) (n : String),
    db.hasTable n = true →
    (l.foldl (fun d s => createTableIfNotExists s d) db).hasTable n = true := by
  induction l with
  | nil => intro db n h; exact h
  | cons s rest ih => intro db n h; exact ih _ _ (hasTable_create_mono s db n h)

theorem foldl_create_hasTable (l : List TableSchema) : ∀ (db : DBState) (s : TableSchema),
    s ∈ l → (l.foldl (fun d s => createTableIfNotExists s d) db).hasTable s.name = true := by
  induction l with
  | nil => intro db s h; cases h
  | cons a rest ih =>
    intro db s h
    rcases List.mem_cons.mp h with heq | hm
    · subst heq
      exact foldl_create_mono rest _ _ (hasTable_create_self s db)
    · exact ih _ _ hm

theorem create_eq_of_hasTable (s : TableSchema) (db : DBState)
    (h : db.hasTable s.name = true) : createTableIfNotExists s db = db := by
  unfold createTableIfNotExists
  simp [h]

theorem foldl_create_id (l : List TableSchema) : ∀ db : DBState,
    (∀ s ∈ l, db.hasTable s.name = true) →
    l.foldl (fun d s => createTableIfNotExists s d) db = db := by
  induction l with
  | nil => intro db _; rfl
  | cons a rest ih =>
    intro db h
    rw [List.foldl_cons, create_eq_of_hasTable a db (h a (List.mem_cons_self a rest))]
    exact ih db fun s hs => h s (List.mem_cons_of_mem a hs)

theorem applySchema_idem (db : DBState) : applySchema (applySchema db) = applySchema db := by
  unfold applySchema
  exact foldl_create_id migrationSchemas _ fun s hs => foldl_create_hasTable migrationSchemas db s hs

/-- Claim C3: run_migrations is idempotent — for every starting store state,
running it twice in succession leaves exactly the store that one run leaves
(same tables, same structure, same rows). -/
theorem run_migrations_idempotent (db : DBState) :
    (run_migrations noFail ((run_migrations noFail db).db)).db = (run_migrations noFail db).db := by
  simp [run_migrations_noFail_eq, applySchema_idem]

theorem create_tables_append (s : TableSchema) (db : DBState) :
    ∃ rest, (createTableIfNotExists s db).tables = db.tables ++ rest := by
  unfold createTableIfNotExists
  split
  · exact ⟨[], by simp⟩
  · exact ⟨[Table.mkEmpty s], rfl⟩

theorem foldl_create_append (l : List TableSchema) : ∀ db : DBState,
    ∃ rest, ((l.foldl (fun d s => createTableIfNotExists s d) db)).tables = db.tables ++ rest := by
  induction l with
  | nil => intro db; exact ⟨[], by simp⟩
  | cons a rest ih =>
    intro db
    obtain ⟨r2, h2⟩ := ih (createTableIfNotExists a db)
    obtain ⟨r1, h1⟩ := create_tables_append a db
    exact ⟨r1 ++ r2, by rw [List.foldl_cons, h2, h1, List.append_assoc]⟩

/-- Claim C9: run_migrations never drops or alters an existing table — the
store after a run is exactly the original table list (each pre-existing
table with its schema and rows untouched, in place) extended by some newly
created tables at the end. -/
theorem run_migrations_preserves_existing (db : DBState) :
    ∃ rest, (run_migrations noFail db).db.tables = db.tables ++ rest := by
  rw [run_migrations_noFail_eq]
  exact foldl_create_append migrationSchemas db

theorem foldl_create_fresh (l : List TableSchema) : ∀ db : DBState,
    (∀ s ∈ l, db.hasTable s.name = false) → (l.map (fun s => s.name)).Nodup →
    (l.foldl (fun d s => createTableIfNotExists s d) db).tables =
      db.tables ++ l.map Table.mkEmpty := by
  induction l with
  | nil => intro db _ _; simp
  | cons a rest ih =>
    intro db h hnd
    have ha : db.hasTable a.name = false := h a (List.mem_cons_self a rest)
    have hcr : createTableIfNotExists a db = ⟨db.tables ++ [Table.mkEmpty a]⟩ := by
      unfold createTableIfNotExists
      simp [ha]
    rw [List.map_cons, List.nodup_cons] at hnd
    rw [List.foldl_cons, hcr, ih ⟨db.tables ++ [Table.mkEmpty a]⟩ ?_ hnd.2]
    · simp
    · intro s hs
      have hne : a.name ≠ s.name := fun hEq => hnd.1 (hEq ▸ List.mem_map_of_mem _ hs)
      have hsf : db.hasTable s.name = false := h s (List.mem_cons_of_mem a hs)
      simp only [DBState.hasTable, List.any_append] at hsf ⊢
      simp [hsf, Table.mkEmpty]
      exact hne

/-- Claim C2 (amended): run against a store containing none of the nine
table names (in particular the empty store), run_migrations creates exactly
the nine tables of the spec's schema section, with exactly the spec's
column sets and constraints, appended to whatever tables were already
there. -/
theorem run_migrations_fresh_store (db : DBState)
    (h : ∀ s ∈ migrationSchemas, db.hasTable s.name = false) :
    (run_migrations noFail db).db.tables = db.tables ++ specTables := by
  rw [run_migrations_noFail_eq]
  show (applySchema db).tables = _
  unfold applySchema
  rw [foldl_create_fresh migrationSchemas db h (by decide)]
  rfl

/-- Witness for the amended C2: the empty store satisfies the hypothesis and
ends up holding exactly the spec's nine tables. -/
theorem run_migrations_fresh_store_witness :
    (∀ s ∈ migrationSchemas, emptyDB.hasTable s.name = false) ∧
    (run_migrations noFail emptyDB).db.tables = emptyDB.tables ++ specTables :=
  ⟨by decide, run_migrations_fresh_store emptyDB (by decide)⟩

/-- Claim C2 counterexample: a store already holding a structurally
different `student` table keeps it unchanged, so running run_migrations
against that store does not leave a `student` table with the spec's column
set. -/
theorem run_migrations_any_store_cex :
    ((run_migrations noFail weirdStudentDB).db.findTable "student").map Table.schema ≠
      some specStudent := by decide

/-- Claim C1 counterexample: when the first CREATE statement raises a store
error, run_migrations propagates the error to the caller without ever
reaching `conn.close()` — the connection is not closed on the failure path. -/
theorem run_migrations_close_cex :
    (run_migrations failFirst emptyDB).error = some SqlError.accessError ∧
    (run_migrations failFirst emptyDB).connClosed = false := by decide

/-- Claim C1 (amended): run_migrations closes its connection exactly when it
returns without error; when a statement or the commit fails, the store error
propagates to the caller with the connection left open (the body has no
try/finally, so the close calls are skipped). -/
theorem run_migrations_close_iff_no_error (fail : Nat → Option SqlError) (db : DBState) :
    (run_migrations fail db).connClosed = (run_migrations fail db).error.isNone := by
  unfold run_migrations
  cases h : runStmts fail 0 db migrationSchemas with
  | mk db1 err =>
    cases err with
    | some e => simp
    | none =>
      cases hf : fail migrationSchemas.length with
      | some e => simp [hf]
      | none => simp [hf]

theorem connCalls_spec (env : ConnEnv) (n : Nat) :
    connCalls env n = (⟨env.nextId + n, true, RowFactory.sqliteRow⟩, ⟨env.nextId + n + 1⟩) := by
  induction n with
  | zero => simp [connCalls, get_db_connection]
  | succ k ih =>
    simp only [connCalls, ih, get_db_connection]
    rfl

/-- Claim C6: distinct calls to get_db_connection yield handles with distinct
identities; every returned handle has the foreign-key pragma enabled, and its
row factory makes fetched rows addressable both by column name and by
position. -/
theorem get_db_connection_handles (env : ConnEnv) (n m : Nat) (hnm : n ≠ m) :
    (connCalls env n).1.id ≠ (connCalls env m).1.id ∧
    (connCalls env n).1.fkEnabled = true ∧
    (connCalls env n).1.getByName = (fun r c => r.lookup c) ∧
    (connCalls env n).1.getByIndex = (fun r i => (r[i]?).map Prod.snd) := by
  rw [connCalls_spec env n, connCalls_spec env m]
  refine ⟨?_, rfl, rfl, rfl⟩
  simp only [ne_eq]
  omega

/-- Witness for C6 at the first two calls on a fresh environment. -/
theorem get_db_connection_handles_witness :
    (0 : Nat) ≠ 1 ∧
    ((connCalls ⟨0⟩ 0).1.id ≠ (connCalls ⟨0⟩ 1).1.id ∧
     (connCalls ⟨0⟩ 0).1.fkEnabled = true ∧
     (connCalls ⟨0⟩ 0).1.getByName = (fun r c => r.lookup c) ∧
     (connCalls ⟨0⟩ 0).1.getByIndex = (fun r i => (r[i]?).map Prod.snd)) :=
  ⟨by decide, get_db_connection_handles ⟨0⟩ 0 1 (by decide)⟩

/-- Claim C8: get_db_pool is an exact alias of get_db_connection — for every
allocation state it returns the very same handle and successor state, so it
carries the same pragma and row-factory configuration and adds no pooling. -/
theorem get_db_pool_eq_get_db_connection (env : ConnEnv) :
    get_db_pool env = get_db_connection env := rfl

/-- Claim C7 counterexample: Student and AuditLog are not field-for-field
mirrors of their tables — Student annotates `year` as `str` though the
column is INTEGER, and AuditLog spells `entitiy_type` (column `entity_type`)
and annotates `user_id` as `int` though the column is TEXT. -/
theorem models_mirror_cex :
    StudentFields ≠ mirrorFields studentSchema noSpecial ∧
    AuditLogFields ≠ mirrorFields auditLogSchema noSpecial := by decide

/-- Claim C7 (amended): AttendanceRecord and Alert mirror their tables
field-for-field with native types; Student mirrors its table except that
`year` is annotated `str` instead of `int`; AuditLog mirrors its table
except that `user_id` is annotated `int` instead of `str` and the
`entity_type` column's field is misspelled `entitiy_type`. -/
theorem models_mirror_amended :
    AttendanceRecordFields = mirrorFields attendanceSchema attendanceSpecial ∧
    AlertFields = mirrorFields alertSchema alertSpecial ∧
    StudentFields =
      (mirrorFields studentSchema noSpecial).map
        (fun p => if p.1 = "year" then ("year", PyType.str) else p) ∧
    AuditLogFields =
      (mirrorFields auditLogSchema noSpecial).map
        (fun p =>
          if p.1 = "user_id" then ("user_id", PyType.int)
          else if p.1 = "entity_type" then ("entitiy_type", PyType.str)
          else p) := by decide

/-- Claim C10: constructing an Alert without supplying the resolved field
yields an unresolved alert (`resolved = False`), for every choice of the
other five fields. -/
theorem alert_default_unresolved (i : Int) (s t r : String) (c : PyDatetime) :
    (mkAlertDefault i s t r c).resolved = false := rfl

theorem rowVal_cons_ne (a b : String) (v : Value) (r : Row) (h : (b == a) = false) :
    rowVal ((a, v) :: r) b = rowVal r b := by
  simp [rowVal, List.lookup, h]

theorem rowVal_autoAssign_ne (t : Table) (r : Row) (c : String)
    (h : ∀ col, t.schema.columns.find? (fun x => x.pk && x.autoincrement) = some col →
      (c == col.name) = false) :
    rowVal (autoAssign t r) c = rowVal r c := by
  unfold autoAssign
  split
  next col heq =>
    have hne := h col heq
    split
    · exact rowVal_cons_ne col.name c _ r hne
    · rfl
  next heq => rfl

theorem find_auto_att :
    attendanceSchema.columns.find? (fun x => x.pk && x.autoincrement) =
      some { name := "attendance_id", ty := SQLType.integer, pk := true, autoincrement := true } :=
  rfl

theorem find_auto_sub :
    submissionSchema.columns.find? (fun x => x.pk && x.autoincrement) =
      some { name := "submission_id", ty := SQLType.integer, pk := true, autoincrement := true } :=
  rfl

theorem find_auto_wb :
    wellbeingRecordSchema.columns.find? (fun x => x.pk && x.autoincrement) =
      some { name := "record_id", ty := SQLType.integer, pk := true, autoincrement := true } :=
  rfl

theorem find_auto_alert :
    alertSchema.columns.find? (fun x => x.pk && x.autoincrement) =
      some { name := "alert_id", ty := SQLType.integer, pk := true, autoincrement := true } :=
  rfl

theorem rowVal_autoAssign_student_id (t : Table) (r : Row)
    (hsch : t.schema ∈ [attendanceSchema, submissionSchema, wellbeingRecordSchema, alertSchema]) :
    rowVal (autoAssign t r) "student_id" = rowVal r "student_id" := by
  simp only [List.mem_cons, List.not_mem_nil, or_false] at hsch
  apply rowVal_autoAssign_ne
  intro col hf
  rcases hsch with h | h | h | h
  · rw [h, find_auto_att] at hf
    injection hf with hc
    rw [← hc]
    decide
  · rw [h, find_auto_sub] at hf
    injection hf with hc
    rw [← hc]
    decide
  · rw [h, find_auto_wb] at hf
    injection hf with hc
    rw [← hc]
    decide
  · rw [h, find_auto_alert] at hf
    injection hf with hc
    rw [← hc]
    decide

theorem insertRow_fk_error (h : Handle) (db : DBState) (tname : String) (t : Table) (r : Row)
    (fk : ForeignKey)
    (hfind : db.findTable tname = some t)
    (hnn : notNullOk t.schema r = true)
    (huq : uniqueOk t (autoAssign t r) = true)
    (hfken : h.fkEnabled = true)
    (hmem : fk ∈ t.schema.foreignKeys)
    (hbad : fkSatisfied db (autoAssign t r) fk = false) :
    insertRow h db tname r = Except.error SqlError.fkViolation := by
  have hall : t.schema.foreignKeys.all (fkSatisfied db (autoAssign t r)) = false :=
    List.all_eq_false.mpr ⟨fk, hmem, by simp [hbad]⟩
  unfold insertRow
  rw [hfind]
  simp [hnn, huq, hfken, hall]

theorem student_fk_mem (t : Table)
    (hsch : t.schema ∈ [attendanceSchema, submissionSchema, wellbeingRecordSchema, alertSchema]) :
    (⟨"student_id", "student", "student_id"⟩ : ForeignKey) ∈ t.schema.foreignKeys := by
  simp only [List.mem_cons, List.not_mem_nil, or_false] at hsch
  rcases hsch with h | h | h | h <;> rw [h] <;> decide

theorem notNullOk_studentFK (t : Table) (r : Row)
    (hsch : t.schema ∈ [attendanceSchema, submissionSchema, wellbeingRecordSchema, alertSchema]) :
    notNullOk t.schema r = true := by
  simp only [List.mem_cons, List.not_mem_nil, or_false] at hsch
  rcases hsch with h | h | h | h <;>
    rw [h] <;>
    simp [notNullOk, attendanceSchema, submissionSchema, wellbeingRecordSchema, alertSchema]

/-- Claim C4: through a handle produced by get_db_connection, inserting an
attendance, submission, wellbeing_record or alert row whose student_id is a
value not present in the student table fails with a foreign-key violation
(an error result leaves the store unchanged — the row is not stored). -/
theorem insert_missing_student_rejected
    (env : ConnEnv) (db : DBState) (t stu : Table) (r : Row) (s : String)
    (hsch : t.schema ∈ [attendanceSchema, submissionSchema, wellbeingRecordSchema, alertSchema])
    (hfind : db.findTable t.schema.name = some t)
    (hstu : db.findTable "student" = some stu)
    (hsid : rowVal r "student_id" = Value.text s)
    (hnot : ∀ prow ∈ stu.rows, rowVal prow "student_id" ≠ Value.text s)
    (huq : uniqueOk t (autoAssign t r) = true) :
    insertRow (get_db_connection env).1 db t.schema.name r = Except.error SqlError.fkViolation := by
  have hnn : notNullOk t.schema r = true := notNullOk_studentFK t r hsch
  have hsid2 : rowVal (autoAssign t r) "student_id" = Value.text s := by
    rw [rowVal_autoAssign_student_id t r hsch, hsid]
  have hbad : fkSatisfied db (autoAssign t r) ⟨"student_id", "student", "student_id"⟩ = false := by
    simp only [fkSatisfied, hsid2, hstu]
    simp [List.any_eq_false]
    exact hnot
  exact insertRow_fk_error (get_db_connection env).1 db t.schema.name t r
    ⟨"student_id", "student", "student_id"⟩ hfind hnn huq rfl (student_fk_mem t hsch) hbad

/-- Witness for C4: on a freshly migrated-shape store with no students,
inserting an attendance row for student "S001" fails with a foreign-key
violation. -/
theorem insert_missing_student_rejected_witness :
    (attendanceSchema ∈ [attendanceSchema, submissionSchema, wellbeingRecordSchema, alertSchema] ∧
     fkDemoDB.findTable "attendance" = some (Table.mkEmpty attendanceSchema) ∧
     fkDemoDB.findTable "student" = some (Table.mkEmpty studentSchema) ∧
     rowVal fkDemoRow "student_id" = Value.text "S001" ∧
     uniqueOk (Table.mkEmpty attendanceSchema)
       (autoAssign (Table.mkEmpty attendanceSchema) fkDemoRow) = true) ∧
    insertRow (get_db_connection ⟨0⟩).1 fkDemoDB "attendance" fkDemoRow =
      Except.error SqlError.fkViolation :=
  ⟨by decide,
   insert_missing_student_rejected ⟨0⟩ fkDemoDB (Table.mkEmpty attendanceSchema)
     (Table.mkEmpty studentSchema) fkDemoRow "S001" (by decide) (by decide) (by decide)
     (by decide) (by decide) (by decide)⟩

/-- Claim C5: with a student already stored under a non-null email,
inserting a second student row carrying the same email through a
get_db_connection handle fails with a uniqueness violation (an error result
leaves the store unchanged — the student table keeps its rows). -/
theorem insert_duplicate_email_rejected
    (env : ConnEnv) (db : DBState) (stu : Table) (r0 r : Row) (e : String)
    (hfind : db.findTable "student" = some stu)
    (hsch : stu.schema = studentSchema)
    (hr0 : r0 ∈ stu.rows)
    (he0 : rowVal r0 "email" = Value.text e)
    (he : rowVal r "email" = Value.text e) :
    insertRow (get_db_connection env).1 db "student" r = Except.error SqlError.uniqueViolation := by
  have hnn : notNullOk stu.schema r = true := by
    rw [hsch]
    simp [notNullOk, studentSchema]
  have hauto : autoAssign stu r = r := by
    unfold autoAssign
    rw [hsch]
    rfl
  have huq : uniqueOk stu (autoAssign stu r) = false := by
    rw [hauto]
    have hmem : ({ name := "email", ty := SQLType.text, unique := true } : Column) ∈
        stu.schema.columns := by
      rw [hsch]
      decide
    refine List.all_eq_false.mpr ⟨_, hmem, ?_⟩
    simp [he]
    exact ⟨r0, hr0, by rw [he0]⟩
  unfold insertRow
  rw [hfind]
  simp [hnn, huq]

/-- Witness for C5: a second student reusing a stored email is rejected. -/
theorem insert_duplicate_email_rejected_witness :
    (emailDemoDB.findTable "student" = some ⟨studentSchema, [emailDemoRow0]⟩ ∧
     emailDemoRow0 ∈ [emailDemoRow0] ∧
     rowVal emailDemoRow0 "email" = Value.text "john@example.com" ∧
     rowVal emailDemoRow "email" = Value.text "john@example.com") ∧
    insertRow (get_db_connection ⟨0⟩).1 emailDemoDB "student" emailDemoRow =
      Except.error SqlError.uniqueViolation :=
  ⟨by decide,
   insert_duplicate_email_rejected ⟨0⟩ emailDemoDB ⟨studentSchema, [emailDemoRow0]⟩
     emailDemoRow0 emailDemoRow "john@example.com" (by decide) rfl (by decide) (by decide)
     (by decide)⟩

end SWB
